import Mathlib

/-!
Shallow embedding of the shopify-sku-sync service (three reference
implementations: the first and the SyncTracker variant in `src/index.js`,
and the `process.nextTick` variant in `src/unnamed/part_002`).

JavaScript values are modelled as follows: numeric ids are `Nat`, inventory
quantities are `Int`, timestamps (`Date.now()`) are `Nat` milliseconds,
possibly-missing payload fields are `Option`, JS `Map`s are association
lists, JS truthiness of numbers and strings is made explicit, and code that
can throw returns `Except Unit`.
-/

namespace SkuSync

/-- JS truthiness of a possibly-undefined string: `undefined` and `""` are falsy. -/
def strTruthy : Option String → Bool
  | none => false
  | some s => s != ""

/-- JS truthiness of a possibly-undefined number: `undefined` and `0` are falsy. -/
def natTruthy : Option Nat → Bool
  | none => false
  | some n => n != 0

/-- JS truthiness of a possibly-undefined integer quantity. -/
def intTruthy : Option Int → Bool
  | none => false
  | some n => n != 0

/-- A product variant as returned by `findVariantsBySKU`:
`{ id, sku, inventory_item_id }` where `inventory_item_id` is a GID string
such as `"gid://shopify/InventoryItem/111"`. -/
structure Variant where
  id : String
  sku : String
  inventory_item_id : String
deriving Repr, DecidableEq

/-- One entry of the `setQuantities` input of the absolute-set mutation. -/
structure SetUpdate where
  inventoryItemId : String
  locationId : String
  quantity : Int
deriving Repr, DecidableEq

/-- One entry of the `adjustQuantities` input of the delta mutation. -/
structure DeltaUpdate where
  inventoryItemId : String
  locationId : String
  availableDelta : Int
deriving Repr, DecidableEq

/-- The value stored in `syncTracker.operations` by `markSync`:
`{ timestamp: Date.now(), variantIds: new Set(variantIds) }`. -/
structure SyncInfo where
  timestamp : Nat
  variantIds : List String
deriving Repr, DecidableEq

/-- The `syncTracker.operations` JS `Map`, keyed by the sync key string. -/
def OpsMap := List (String × SyncInfo)

/-- The `processingQueue` JS `Map` (per-SKU locks), value is the acquisition time. -/
def LockMap := List (String × Nat)

/-- `syncTracker.batchSize = 50` (same in all three implementations). -/
def batchSize : Nat := 50

/-- `syncTracker.timeout` of the first implementation: 10000 ms. -/
def timeout1 : Nat := 10000

/-- `syncTracker.timeout` of the part_002 implementation: 30000 ms. -/
def timeout3 : Nat := 30000

/-- `this.timeout` of the SyncTracker class variant: 25000 ms. -/
def timeoutTracker : Nat := 25000

/-- The template-literal key `` `${sku}:${locationId}:${quantity}` ``. -/
def syncKey (sku : String) (locationId : Nat) (quantity : Int) : String :=
  sku ++ ":" ++ toString locationId ++ ":" ++ toString quantity

/-- JS `Map.set`: replace any existing entry for the key. -/
def setKey (m : OpsMap) (k : String) (v : SyncInfo) : OpsMap :=
  (k, v) :: m.filter (fun p => p.1 != k)

/-- JS `Map.delete` on the operations map (the `setTimeout` cleanup callback). -/
def delOpsKey (m : OpsMap) (k : String) : OpsMap :=
  m.filter (fun p => p.1 != k)

/-- JS `Map.delete` on the lock map (`releaseLock`). -/
def delLockKey (m : LockMap) (k : String) : LockMap :=
  m.filter (fun p => p.1 != k)

/-- `syncTracker.isRecentSync(sku, locationId, quantity)`: true iff the
operations map holds the key and `now - timestamp < timeout`. -/
def isRecentSync (timeout : Nat) (ops : OpsMap) (sku : String) (locationId : Nat)
    (quantity : Int) (now : Nat) : Bool :=
  match List.lookup (syncKey sku locationId quantity) ops with
  | some info => decide (now - info.timestamp < timeout)
  | none => false

/-- `syncTracker.markSync(sku, locationId, quantity, variantIds)`: store
`{timestamp: now, variantIds}` under the sync key.  The `setTimeout`
cleanup it schedules is modelled separately by `delOpsKey`. -/
def markSync (ops : OpsMap) (sku : String) (locationId : Nat) (quantity : Int)
    (variantIds : List String) (now : Nat) : OpsMap :=
  setKey ops (syncKey sku locationId quantity) ⟨now, variantIds⟩

theorem lookup_setKey_self (m : OpsMap) (k : String) (v : SyncInfo) :
    List.lookup k (setKey m k v) = some v := by
  simp [setKey, List.lookup]

theorem lookup_delOpsKey_self (m : OpsMap) (k : String) :
    List.lookup k (delOpsKey m k) = none := by
  induction m with
  | nil => rfl
  | cons p rest ih =>
    by_cases h : p.1 = k
    · simpa [delOpsKey, List.filter, h] using ih
    · have hb : (p.1 != k) = true := by simp [h]
      have hk : (k == p.1) = false := by simp [Ne.symm h]
      simp only [delOpsKey] at ih ⊢
      simpa [List.filter, hb, List.lookup, hk] using ih

theorem lookup_delLockKey_self (m : LockMap) (k : String) :
    List.lookup k (delLockKey m k) = none := by
  induction m with
  | nil => rfl
  | cons p rest ih =>
    by_cases h : p.1 = k
    · simpa [delLockKey, List.filter, h] using ih
    · have hb : (p.1 != k) = true := by simp [h]
      have hk : (k == p.1) = false := by simp [Ne.symm h]
      simp only [delLockKey] at ih ⊢
      simpa [List.filter, hb, List.lookup, hk] using ih

/-- C5: a SyncRecord stored at `t0` with window `W` suppresses exactly the
half-open interval `[t0, t0 + W)`, and the scheduled deletion removes it. -/
theorem markSync_window (ops : OpsMap) (sku : String) (loc : Nat) (qty : Int)
    (ids : List String) (W t0 t1 t2 : Nat)
    (h1 : t0 ≤ t1) (h2 : t1 < t0 + W) (h3 : t0 + W ≤ t2) :
    isRecentSync W (markSync ops sku loc qty ids t0) sku loc qty t1 = true
    ∧ isRecentSync W (markSync ops sku loc qty ids t0) sku loc qty t2 = false
    ∧ List.lookup (syncKey sku loc qty)
        (delOpsKey (markSync ops sku loc qty ids t0) (syncKey sku loc qty)) = none := by
  refine ⟨?_, ?_, lookup_delOpsKey_self _ _⟩
  · simp only [isRecentSync, markSync, lookup_setKey_self]
    simp only [decide_eq_true_eq]
    omega
  · simp only [isRecentSync, markSync, lookup_setKey_self]
    simp only [decide_eq_false_iff_not]
    omega

theorem markSync_window_witness :
    isRecentSync 10000 (markSync [] "RED-L" 99 5 ["gid://shopify/InventoryItem/222"] 0)
      "RED-L" 99 5 9999 = true
    ∧ isRecentSync 10000 (markSync [] "RED-L" 99 5 ["gid://shopify/InventoryItem/222"] 0)
      "RED-L" 99 5 10000 = false
    ∧ List.lookup (syncKey "RED-L" 99 5)
        (delOpsKey (markSync [] "RED-L" 99 5 ["gid://shopify/InventoryItem/222"] 0)
          (syncKey "RED-L" 99 5)) = none :=
  markSync_window [] "RED-L" 99 5 ["gid://shopify/InventoryItem/222"] 10000 0 9999 10000
    (by decide) (by decide) (by decide)

/-- JS `s.split('/').pop()`: the final element of the split, i.e. the text
after the last `'/'` (the whole string when no `'/'` occurs).  Implemented
by structural recursion on the character list so it evaluates in the kernel. -/
def lastSegment (s : String) : String :=
  ⟨(s.data.reverse.takeWhile (fun c => c ≠ '/')).reverse⟩

/-- JS `String.prototype.endsWith`, via character lists. -/
def jsEndsWith (s suffix : String) : Bool :=
  List.isSuffixOf suffix.data s.data

/-- JS `String.prototype.trim`, via character lists. -/
def jsTrim (s : String) : String :=
  ⟨((s.data.dropWhile Char.isWhitespace).reverse.dropWhile Char.isWhitespace).reverse⟩

/-- The template literal `` `gid://shopify/Location/${location_id}` ``. -/
def locationGid (location_id : Nat) : String :=
  "gid://shopify/Location/" ++ toString location_id

/-- The object literal built for each kept variant in the absolute-set flows:
`{ inventoryItemId: v.inventory_item_id, locationId: locationGid, quantity: available }`. -/
def mkSetUpdate (v : Variant) (location_id : Nat) (available : Int) : SetUpdate :=
  { inventoryItemId := v.inventory_item_id
    locationId := locationGid location_id
    quantity := available }

/-- The `updates` list of the first implementation (and of part_002):
`variants.filter(v => v.inventory_item_id.split('/').pop() !== String(inventory_item_id)).map(...)`. -/
def computeSetUpdates (variants : List Variant) (inventory_item_id : Nat)
    (location_id : Nat) (available : Int) : List SetUpdate :=
  (variants.filter
      (fun v => lastSegment v.inventory_item_id != toString inventory_item_id)).map
    (fun v => mkSetUpdate v location_id available)

/-- The trigger-exclusion test of the SyncTracker variant:
`!v.inventory_item_id.endsWith(`/${inventory_item_id}`)`. -/
def trackerSiblingKeep (inventory_item_id : Nat) (v : Variant) : Bool :=
  !(jsEndsWith v.inventory_item_id ("/" ++ toString inventory_item_id))

/-- The `updates` list of the SyncTracker variant:
`variants.filter(...).slice(0, syncTracker.batchSize).map(...)`. -/
def computeSetUpdatesTracker (variants : List Variant) (inventory_item_id : Nat)
    (location_id : Nat) (available : Int) : List SetUpdate :=
  ((variants.filter (trackerSiblingKeep inventory_item_id)).take batchSize).map
    (fun v => mkSetUpdate v location_id available)

/-- The SyncTracker variant's filtered sibling list without the
`slice(0, batchSize)` truncation, for stating how the truncation acts. -/
def trackerSiblingUpdates (variants : List Variant) (inventory_item_id : Nat)
    (location_id : Nat) (available : Int) : List SetUpdate :=
  (variants.filter (trackerSiblingKeep inventory_item_id)).map
    (fun v => mkSetUpdate v location_id available)

/-- A variant-search node as extracted from the GraphQL edges
(`{ id, sku, inventoryItem: { id } }`). -/
structure VNode where
  id : String
  sku : String
  inventoryItemId : String
deriving Repr, DecidableEq

/-- `findVariantsBySKU(sku)`: guard falsy SKU, trim, query the remote search
with `"sku:" + normalizedSku`, and map the edges to variants.  The remote
search is the `search` oracle; the results are NOT filtered afterwards. -/
def findVariantsBySKU (search : String → List VNode) (sku : Option String) : List Variant :=
  if !strTruthy sku then []
  else
    let normalizedSku := jsTrim (sku.getD "")
    (search ("sku:" ++ normalizedSku)).map
      (fun n => { id := n.id, sku := n.sku, inventory_item_id := n.inventoryItemId })

/-- Fuel-based core of the batch splitting loop; the fuel starts at the list
length, which suffices because every iteration with a positive size consumes
at least one element (structural recursion so it evaluates in the kernel). -/
def chunkGo (size : Nat) : Nat → List α → List (List α)
  | _, [] => []
  | 0, _ :: _ => []
  | f + 1, a :: rest => ((a :: rest).take size) :: chunkGo size f ((a :: rest).drop size)

/-- The batch splitting loop (`chunk` in part_002; the same `for`/`slice`
loop appears inline in the first implementation). -/
def chunk (l : List α) (size : Nat) : List (List α) :=
  chunkGo size l.length l

theorem chunkGo_flatten (n : Nat) :
    ∀ (f : Nat) (l : List α), l.length ≤ f → (chunkGo (n + 1) f l).flatten = l := by
  intro f
  induction f with
  | zero =>
    intro l hl
    match l with
    | [] => simp [chunkGo]
  | succ f ih =>
    intro l hl
    match l with
    | [] => simp [chunkGo]
    | a :: rest =>
      simp only [chunkGo, List.flatten_cons]
      rw [ih ((a :: rest).drop (n + 1))
        (by
          simp only [List.length_drop, List.length_cons]
          simp only [List.length_cons] at hl
          omega)]
      simp [List.take_append_drop]

theorem chunk_flatten (n : Nat) (l : List α) : (chunk l (n + 1)).flatten = l :=
  chunkGo_flatten n l.length l le_rfl

theorem chunkGo_mem_length_le (n : Nat) :
    ∀ (f : Nat) (l : List α) (b : List α),
      b ∈ chunkGo (n + 1) f l → b.length ≤ n + 1 := by
  intro f
  induction f with
  | zero =>
    intro l b hb
    match l with
    | [] => simp [chunkGo] at hb
    | _ :: _ => simp [chunkGo] at hb
  | succ f ih =>
    intro l b hb
    match l with
    | [] => simp [chunkGo] at hb
    | a :: rest =>
      simp only [chunkGo] at hb
      rcases List.mem_cons.mp hb with h | h
      · subst h
        simp
      · exact ih _ b h

theorem chunk_mem_length_le (n : Nat) (l : List α) (b : List α)
    (hb : b ∈ chunk l (n + 1)) : b.length ≤ n + 1 :=
  chunkGo_mem_length_le n l.length l b hb

/-- C1 (amended): in the first implementation the absolute-set update list
targets exactly the variants whose inventory item id (the last GID segment)
differs from the triggering id, each with the event quantity at the event
location, and never the trigger.  The SyncTracker variant additionally
truncates the filtered sibling list to the first `batchSize = 50` entries;
within that truncated list every update still carries the event quantity and
location and never targets the trigger. -/
theorem setUpdates_target_siblings (variants : List Variant)
    (inventory_item_id location_id : Nat) (available : Int) :
    (∀ u ∈ computeSetUpdates variants inventory_item_id location_id available,
        u.quantity = available ∧ u.locationId = locationGid location_id
        ∧ lastSegment u.inventoryItemId ≠ toString inventory_item_id
        ∧ ∃ v ∈ variants, u = mkSetUpdate v location_id available)
    ∧ (∀ v ∈ variants, lastSegment v.inventory_item_id ≠ toString inventory_item_id →
        mkSetUpdate v location_id available
          ∈ computeSetUpdates variants inventory_item_id location_id available)
    ∧ computeSetUpdatesTracker variants inventory_item_id location_id available
        = (trackerSiblingUpdates variants inventory_item_id location_id available).take
            batchSize
    ∧ (∀ u ∈ computeSetUpdatesTracker variants inventory_item_id location_id available,
        u.quantity = available ∧ u.locationId = locationGid location_id
        ∧ jsEndsWith u.inventoryItemId ("/" ++ toString inventory_item_id) = false
        ∧ ∃ v ∈ variants, u = mkSetUpdate v location_id available)
    ∧ (computeSetUpdatesTracker variants inventory_item_id location_id available).length
        ≤ batchSize := by
  refine ⟨?_, ?_, ?_, ?_, ?_⟩
  · intro u hu
    simp only [computeSetUpdates, List.mem_map, List.mem_filter] at hu
    obtain ⟨v, ⟨hv, hkeep⟩, rfl⟩ := hu
    refine ⟨rfl, rfl, ?_, v, hv, rfl⟩
    simpa [mkSetUpdate, bne_iff_ne] using hkeep
  · intro v hv hne
    simp only [computeSetUpdates, List.mem_map, List.mem_filter]
    exact ⟨v, ⟨hv, by simpa [bne_iff_ne] using hne⟩, rfl⟩
  · simp [computeSetUpdatesTracker, trackerSiblingUpdates, List.map_take]
  · intro u hu
    simp only [computeSetUpdatesTracker, List.mem_map] at hu
    obtain ⟨v, hvtake, rfl⟩ := hu
    have hvfilt := List.take_subset batchSize _ hvtake
    simp only [List.mem_filter] at hvfilt
    obtain ⟨hv, hkeep⟩ := hvfilt
    refine ⟨rfl, rfl, ?_, v, hv, rfl⟩
    simpa [mkSetUpdate, trackerSiblingKeep] using hkeep
  · simp only [computeSetUpdatesTracker, List.length_map]
    exact List.length_take_le _ _

theorem setUpdates_target_siblings_witness :
    mkSetUpdate ⟨"v2", "S", "gid://shopify/InventoryItem/222"⟩ 99 5
      ∈ computeSetUpdates
          [⟨"v1", "S", "gid://shopify/InventoryItem/111"⟩,
           ⟨"v2", "S", "gid://shopify/InventoryItem/222"⟩] 111 99 5 :=
  (setUpdates_target_siblings
      [⟨"v1", "S", "gid://shopify/InventoryItem/111"⟩,
       ⟨"v2", "S", "gid://shopify/InventoryItem/222"⟩] 111 99 5).2.1
    ⟨"v2", "S", "gid://shopify/InventoryItem/222"⟩ (by decide) (by decide)

/-- Fifty-two variants sharing one SKU; the trigger is item 100 and the
siblings are items 101..151. -/
def cexVariants : List Variant :=
  (List.range 52).map (fun i =>
    { id := toString i, sku := "S",
      inventory_item_id := "gid://shopify/InventoryItem/" ++ toString (100 + i) })

/-- C1 counterexample: in the SyncTracker variant, with 51 siblings the
`slice(0, batchSize)` truncation drops the last sibling (item 151), so the
computed update list does not target every non-trigger variant. -/
theorem trackerUpdates_miss_sibling :
    ("gid://shopify/InventoryItem/151"
        ∈ cexVariants.map (fun v => v.inventory_item_id))
    ∧ lastSegment "gid://shopify/InventoryItem/151" ≠ toString 100
    ∧ (computeSetUpdatesTracker cexVariants 100 9 5).all
        (fun u => u.inventoryItemId != "gid://shopify/InventoryItem/151") = true := by
  decide

/-- A remote search oracle exhibiting substring/fuzzy matching: the query
for SKU `RED-L` also returns a variant whose SKU is `RED-LARGE`. -/
def fuzzySearchCex : String → List VNode := fun q =>
  if q = "sku:RED-L" then
    [ { id := "gid://shopify/ProductVariant/1", sku := "RED-L",
        inventoryItemId := "gid://shopify/InventoryItem/1" },
      { id := "gid://shopify/ProductVariant/2", sku := "RED-LARGE",
        inventoryItemId := "gid://shopify/InventoryItem/2" } ]
  else []

/-- C3 (code bug): `findVariantsBySKU` maps the remote search result through
unchanged — no post-query filter to exact SKU equality exists — so when the
remote search matches fuzzily, a variant whose SKU differs from the trimmed
input SKU is returned. -/
theorem findVariantsBySKU_no_exact_filter :
    ∃ v ∈ findVariantsBySKU fuzzySearchCex (some " RED-L "), v.sku ≠ "RED-L" := by
  decide

/-- UTF-8 encoding of one character as plain naturals (Node `Buffer.from(str)`
encodes UTF-8). -/
def utf8EncodeCharNat (c : Char) : List Nat :=
  let n := c.toNat
  if n < 0x80 then [n]
  else if n < 0x800 then [0xC0 ||| (n >>> 6), 0x80 ||| (n &&& 0x3F)]
  else if n < 0x10000 then
    [0xE0 ||| (n >>> 12), 0x80 ||| ((n >>> 6) &&& 0x3F), 0x80 ||| (n &&& 0x3F)]
  else
    [0xF0 ||| (n >>> 18), 0x80 ||| ((n >>> 12) &&& 0x3F),
     0x80 ||| ((n >>> 6) &&& 0x3F), 0x80 ||| (n &&& 0x3F)]

/-- Node `Buffer.from(s)`: the UTF-8 bytes of a string. -/
def utf8Bytes (s : String) : List Nat :=
  s.data.flatMap utf8EncodeCharNat

/-- Node `crypto.timingSafeEqual`: throws a `RangeError` when the two buffers
have different byte lengths, otherwise returns byte-wise equality. -/
def timingSafeEqual (a b : List Nat) : Except Unit Bool :=
  if a.length ≠ b.length then .error () else .ok (a == b)

/-- `verifyWebhook` of the first implementation (no try/catch): missing
header returns false, otherwise `timingSafeEqual` is called directly on the
base64 digest string bytes and the header bytes, so a length mismatch throws.
The HMAC-SHA-256-base64 computation over the raw body is the `digestB64`
oracle (external crypto primitive with a fixed secret). -/
def verifyWebhook1 (digestB64 : List Nat → String) (rawBody : List Nat)
    (hmacHeader : Option String) : Except Unit Bool :=
  if !strTruthy hmacHeader then .ok false
  else
    let generatedHash := digestB64 rawBody
    timingSafeEqual (utf8Bytes generatedHash) (utf8Bytes (hmacHeader.getD ""))

/-- `verifyWebhook` of the SyncTracker variant: the whole body is inside
try/catch, and a missing header or missing raw body short-circuits to false. -/
def verifyWebhookTracker (digestB64 : List Nat → String) (rawBody : Option (List Nat))
    (hmacHeader : Option String) : Bool :=
  let inner : Except Unit Bool :=
    if !strTruthy hmacHeader || rawBody.isNone then .ok false
    else
      timingSafeEqual (utf8Bytes (digestB64 (rawBody.getD [])))
        (utf8Bytes (hmacHeader.getD ""))
  match inner with
  | .ok b => b
  | .error _ => false

/-- `verifyWebhook` of part_002: guards header/body, then inside try/catch
computes the raw digest bytes, decodes the header as base64 (`b64decode`
oracle, Node's lenient `Buffer.from(·, 'base64')`), rejects on length
mismatch before calling `timingSafeEqual`. -/
def verifyWebhook2 (digestRaw : List Nat → List Nat) (b64decode : String → List Nat)
    (rawBody : Option (List Nat)) (hmacHeader : Option String) : Bool :=
  if !strTruthy hmacHeader || rawBody.isNone then false
  else
    let inner : Except Unit Bool :=
      let digest := digestRaw (rawBody.getD [])
      let provided := b64decode (hmacHeader.getD "")
      if provided.length ≠ digest.length then .ok false
      else timingSafeEqual digest provided
    match inner with
    | .ok b => b
    | .error _ => false

/-- C4 (amended): the SyncTracker-variant and part_002 verifiers are total
booleans that fail closed — a missing/empty signature header, a missing raw
body, or a decoded-length mismatch each yield `false` and no exception
escapes — while the first implementation's `verifyWebhook` returns false for
a missing header but propagates an exception whenever the provided
signature's byte length differs from the digest's base64-string byte length. -/
theorem verifyWebhook_fail_closed :
    (∀ (d : List Nat → String) (rawO : Option (List Nat)) (h : Option String),
        strTruthy h = false → verifyWebhookTracker d rawO h = false)
    ∧ (∀ (d : List Nat → String) (h : Option String),
        verifyWebhookTracker d none h = false)
    ∧ (∀ (d : List Nat → String) (rawO : Option (List Nat)) (h : Option String),
        (utf8Bytes (d (rawO.getD []))).length ≠ (utf8Bytes (h.getD "")).length →
        verifyWebhookTracker d rawO h = false)
    ∧ (∀ (dr : List Nat → List Nat) (b64 : String → List Nat)
        (rawO : Option (List Nat)) (h : Option String),
        (b64 (h.getD "")).length ≠ (dr (rawO.getD [])).length →
        verifyWebhook2 dr b64 rawO h = false)
    ∧ (∀ (d : List Nat → String) (raw : List Nat),
        verifyWebhook1 d raw none = .ok false)
    ∧ (∀ (d : List Nat → String) (raw : List Nat) (s : String), s ≠ "" →
        (utf8Bytes (d raw)).length ≠ (utf8Bytes s).length →
        verifyWebhook1 d raw (some s) = .error ()) := by
  refine ⟨?_, ?_, ?_, ?_, ?_, ?_⟩
  · intro d rawO h hh
    simp [verifyWebhookTracker, hh]
  · intro d h
    simp [verifyWebhookTracker]
  · intro d rawO h hlen
    cases hh : strTruthy h with
    | false => simp [verifyWebhookTracker, hh]
    | true =>
      match rawO with
      | none => simp [verifyWebhookTracker]
      | some raw =>
        have hlen' : (utf8Bytes (d raw)).length ≠ (utf8Bytes (h.getD "")).length := by
          simpa using hlen
        simp [verifyWebhookTracker, hh, timingSafeEqual, hlen']
  · intro dr b64 rawO h hlen
    cases hh : strTruthy h with
    | false => simp [verifyWebhook2, hh]
    | true =>
      match rawO with
      | none => simp [verifyWebhook2]
      | some raw =>
        have hlen' : (b64 (h.getD "")).length ≠ (dr raw).length := by simpa using hlen
        simp [verifyWebhook2, hh, hlen']
  · intro d raw
    simp [verifyWebhook1, strTruthy]
  · intro d raw s hs hlen
    have : strTruthy (some s) = true := by simpa [strTruthy] using hs
    simp [verifyWebhook1, this, timingSafeEqual, hlen]

theorem verifyWebhook_fail_closed_witness :
    verifyWebhookTracker (fun _ => "AAAAAAAAAAAAAAAAAAAAAAAAAAAAAAAAAAAAAAAAAAA=")
      (some [1, 2]) (some "abc") = false
    ∧ verifyWebhook2 (fun _ => List.replicate 32 0) (fun _ => [0])
      (some [1, 2]) (some "abc") = false
    ∧ verifyWebhook1 (fun _ => "AAAAAAAAAAAAAAAAAAAAAAAAAAAAAAAAAAAAAAAAAAA=")
      [1, 2] none = .ok false :=
  ⟨verifyWebhook_fail_closed.2.2.1
      (fun _ => "AAAAAAAAAAAAAAAAAAAAAAAAAAAAAAAAAAAAAAAAAAA=")
      (some [1, 2]) (some "abc") (by decide),
   verifyWebhook_fail_closed.2.2.2.1 (fun _ => List.replicate 32 0) (fun _ => [0])
      (some [1, 2]) (some "abc") (by decide),
   verifyWebhook_fail_closed.2.2.2.2.1
      (fun _ => "AAAAAAAAAAAAAAAAAAAAAAAAAAAAAAAAAAAAAAAAAAA=") [1, 2]⟩

/-- C4 counterexample: the first implementation's `verifyWebhook` throws —
rather than returning a boolean — whenever the provided signature's byte
length (here 3, for header `"abc"`) differs from the 44-byte base64 digest. -/
theorem verifyWebhook1_throws :
    verifyWebhook1 (fun _ => "AAAAAAAAAAAAAAAAAAAAAAAAAAAAAAAAAAAAAAAAAAA=")
      [] (some "abc") = .error () := by
  rfl

/-- The parsed body of an inventory-level-changed webhook:
`{ inventory_item_id, location_id, available }`, each possibly missing. -/
structure InvEvent where
  inventory_item_id : Option Nat
  location_id : Option Nat
  available : Option Int
deriving Repr, DecidableEq

/-- The remote catalog responses observed by one run of the first
implementation's handler: the SKU resolved for the triggering inventory item
(`null` item and `null`/empty sku collapsed into the falsy cases), the
variant list returned for that SKU, and the `userErrors` list returned for
each submitted batch mutation. -/
structure Remote1 where
  inventoryItemSku : Option String
  variants : List Variant
  batchRespond : List SetUpdate → List String

/-- Which HTTP outcome the handler reached (200 unless noted). -/
inductive HandlerResp where
  | badPayload
  | noSku
  | suppressed
  | noSiblings
  | nothingToUpdate
  | completed
deriving Repr, DecidableEq

/-- Result of one first-implementation handler run: final operations map,
the batches submitted to the absolute-set mutation, and the outcome. -/
structure Out1 where
  ops : OpsMap
  writes : List (List SetUpdate)
  resp : HandlerResp

/-- JS `Set.prototype.add` on an insertion-ordered string set. -/
def setAdd (l : List String) (x : String) : List String :=
  if l.contains x then l else l ++ [x]

/-- `batchUpdates.forEach(update => processedVariantIds.add(update.inventoryItemId))`. -/
def setAddBatch (l : List String) (b : List SetUpdate) : List String :=
  b.foldl (fun acc u => setAdd acc u.inventoryItemId) l

/-- One iteration of the first implementation's batch loop: submit the
batch; on userErrors set `hasErrors`, otherwise record the processed ids. -/
def batchStep (respond : List SetUpdate → List String)
    (acc : Bool × List String) (b : List SetUpdate) : Bool × List String :=
  let errs := respond b
  if errs.isEmpty then (acc.1, setAddBatch acc.2 b) else (true, acc.2)

/-- The first implementation's batch loop: submit every batch, set
`hasErrors` when a response carries userErrors, and collect the processed
inventory item ids of the error-free batches. -/
def processBatches1 (respond : List SetUpdate → List String)
    (batches : List (List SetUpdate)) : Bool × List String :=
  batches.foldl (batchStep respond) (false, [])

/-- The first implementation's `/webhooks/inventory_levels/update` handler
body after signature verification (index.js lines 157-266): validate the
payload, resolve the SKU, gate on `isRecentSync`, fetch variants, build the
sibling updates, submit them in batches of `batchSize`, and `markSync` only
when no batch reported userErrors.  All `Date.now()` readings of the run are
modelled as the single instant `now`. -/
def processInventoryUpdate1 (r : Remote1) (ops : OpsMap) (now : Nat)
    (e : InvEvent) : Out1 :=
  if !natTruthy e.inventory_item_id || !natTruthy e.location_id
      || e.available.isNone then
    ⟨ops, [], .badPayload⟩
  else if !strTruthy r.inventoryItemSku then ⟨ops, [], .noSku⟩
  else
    let inventory_item_id := e.inventory_item_id.getD 0
    let location_id := e.location_id.getD 0
    let available := e.available.getD 0
    let sku := r.inventoryItemSku.getD ""
    if isRecentSync timeout1 ops sku location_id available now then
      ⟨ops, [], .suppressed⟩
    else
      let variants := r.variants
      if variants.length ≤ 1 then ⟨ops, [], .noSiblings⟩
      else
        let updates := computeSetUpdates variants inventory_item_id location_id available
        if updates.isEmpty then ⟨ops, [], .nothingToUpdate⟩
        else
          let batches := chunk updates batchSize
          let pr := processBatches1 r.batchRespond batches
          let ops' :=
            if !pr.1 then markSync ops sku location_id available pr.2 now else ops
          ⟨ops', batches, .completed⟩

/-- The operations-map key a handler run uses for this event. -/
def eventSyncKey (r : Remote1) (e : InvEvent) : String :=
  syncKey (r.inventoryItemSku.getD "") (e.location_id.getD 0) (e.available.getD 0)

/-- C2: if a first processing of an event performs remote writes and records
the sync at time `t0`, then reprocessing the byte-identical event (same
payload, same remote answers) at any `t` with `t0 < t < t0 + window` is
suppressed by `isRecentSync` and performs zero remote write mutations. -/
theorem replay_within_window_no_writes (r : Remote1) (ops : OpsMap) (t0 t : Nat)
    (e : InvEvent)
    (hw : (processInventoryUpdate1 r ops t0 e).writes ≠ [])
    (hrec : ∃ ids, List.lookup (eventSyncKey r e) (processInventoryUpdate1 r ops t0 e).ops
        = some ⟨t0, ids⟩)
    (ht1 : t0 < t) (ht2 : t < t0 + timeout1) :
    (processInventoryUpdate1 r (processInventoryUpdate1 r ops t0 e).ops t e).writes
      = [] := by
  cases hc1 : (!natTruthy e.inventory_item_id || !natTruthy e.location_id
      || e.available.isNone) with
  | true => simp [processInventoryUpdate1, hc1] at hw
  | false =>
    cases hc2 : (!strTruthy r.inventoryItemSku) with
    | true => simp [processInventoryUpdate1, hc1, hc2] at hw
    | false =>
      obtain ⟨ids, hlook⟩ := hrec
      set ops1 := (processInventoryUpdate1 r ops t0 e).ops with hops1
      have hsup : isRecentSync timeout1 ops1
          (r.inventoryItemSku.getD "") (e.location_id.getD 0) (e.available.getD 0) t
          = true := by
        simp only [isRecentSync]
        rw [show syncKey (r.inventoryItemSku.getD "") (e.location_id.getD 0)
            (e.available.getD 0) = eventSyncKey r e from rfl, hlook]
        simp only [decide_eq_true_eq, timeout1]
        simp only [timeout1] at ht2
        omega
      simp [processInventoryUpdate1, hc1, hc2, hsup]

/-- Concrete remote answers: SKU "A" with a trigger variant and one sibling,
batch mutations succeeding with no userErrors. -/
def wRemote1 : Remote1 :=
  { inventoryItemSku := some "A"
    variants := [⟨"v1", "A", "gid://shopify/InventoryItem/1"⟩,
                 ⟨"v2", "A", "gid://shopify/InventoryItem/2"⟩]
    batchRespond := fun _ => [] }

/-- Concrete inventory-level-changed payload. -/
def wEvent1 : InvEvent := ⟨some 1, some 9, some 5⟩

theorem replay_within_window_no_writes_witness :
    (processInventoryUpdate1 wRemote1
        (processInventoryUpdate1 wRemote1 [] 0 wEvent1).ops 2000 wEvent1).writes = [] :=
  replay_within_window_no_writes wRemote1 [] 0 2000 wEvent1 (by decide)
    ⟨["gid://shopify/InventoryItem/2"], by decide⟩ (by decide) (by decide)

/-- Remote answers observed by one run of the part_002 handler.  Each call
into the GraphQL client can throw (`Except.error`): `getInventoryItem` and
`findVariantsBySKU` propagate GraphQL failures, and each batch mutation, when
it returns, yields its `userErrors` list. -/
structure Remote3 where
  inventoryItemSku : Except Unit (Option String)
  variants : Except Unit (List Variant)
  batchRespond : List SetUpdate → Except Unit (List String)

/-- part_002 `setOnHandBatched` loop over the chunks: each part is submitted
in order; a returned `userErrors` list is only logged, but a thrown error
aborts the remaining parts and propagates (second component). -/
def runChunks (respond : List SetUpdate → Except Unit (List String)) :
    List (List SetUpdate) → List (List SetUpdate) × Option Unit
  | [] => ([], none)
  | part :: rest =>
    match respond part with
    | .error u => ([part], some u)
    | .ok _errs =>
      let pr := runChunks respond rest
      (part :: pr.1, pr.2)

/-- part_002 `setOnHandBatched(updates, reason)`: chunk then submit. -/
def setOnHandBatched (updates : List SetUpdate)
    (respond : List SetUpdate → Except Unit (List String)) :
    List (List SetUpdate) × Option Unit :=
  runChunks respond (chunk updates batchSize)

/-- part_002 `acquireLock(sku)`: fail (after a sleep) if an entry exists,
otherwise insert `(sku, now)` and succeed.  No stale-lock breaking here. -/
def acquireLock3 (q : LockMap) (sku : String) (now : Nat) : Bool × LockMap :=
  if (List.lookup sku q).isSome then (false, q)
  else (true, (sku, now) :: q)

/-- The handler's acquisition loop: `for (let i = 0; i < 3; i++)`. -/
def acquireLoop3 : Nat → LockMap → String → Nat → Bool × LockMap
  | 0, q, _, _ => (false, q)
  | n + 1, q, sku, now =>
    let r := acquireLock3 q sku now
    if r.1 then (true, r.2) else acquireLoop3 n r.2 sku now

/-- Result of one part_002 handler run: final maps, submitted batches, and
the values of the JS variables `lockAcquired` and `sku` as the `finally`
block observes them. -/
structure Out3 where
  ops : OpsMap
  queue : LockMap
  writes : List (List SetUpdate)
  lockAcquired : Bool
  skuVar : Option String

/-- The `try`-block of part_002's `/webhooks/inventory_levels/update`
`process.nextTick` body (lines 236-302): any thrown remote error routes to
the `catch` (which only logs), leaving the state reached so far; `markSync`
runs unconditionally after a completed `setOnHandBatched`. -/
def tryBody3 (r : Remote3) (ops : OpsMap) (queue : LockMap) (now : Nat)
    (e : InvEvent) : Out3 :=
  if !natTruthy e.inventory_item_id || !natTruthy e.location_id
      || e.available.isNone then
    ⟨ops, queue, [], false, none⟩
  else
    match r.inventoryItemSku with
    | .error _ => ⟨ops, queue, [], false, none⟩
    | .ok itemSku =>
      if !strTruthy itemSku then ⟨ops, queue, [], false, itemSku⟩
      else
        let sku := itemSku.getD ""
        let location_id := e.location_id.getD 0
        let available := e.available.getD 0
        if isRecentSync timeout3 ops sku location_id available now then
          ⟨ops, queue, [], false, itemSku⟩
        else
          let acq := acquireLoop3 3 queue sku now
          if !acq.1 then ⟨ops, acq.2, [], false, itemSku⟩
          else
            match r.variants with
            | .error _ => ⟨ops, acq.2, [], true, itemSku⟩
            | .ok variants =>
              if variants.length ≤ 1 then ⟨ops, acq.2, [], true, itemSku⟩
              else
                let updates := computeSetUpdates variants
                  (e.inventory_item_id.getD 0) location_id available
                if updates.isEmpty then ⟨ops, acq.2, [], true, itemSku⟩
                else
                  let sb := setOnHandBatched updates r.batchRespond
                  match sb.2 with
                  | some _ => ⟨ops, acq.2, sb.1, true, itemSku⟩
                  | none =>
                    ⟨markSync ops sku location_id available
                        (updates.map (fun u => u.inventoryItemId)) now,
                      acq.2, sb.1, true, itemSku⟩

/-- The part_002 handler body with its `finally` block applied:
`if (lockAcquired && sku) syncTracker.releaseLock(sku)`. -/
def processInventoryUpdate3 (r : Remote3) (ops : OpsMap) (queue : LockMap)
    (now : Nat) (e : InvEvent) : Out3 :=
  let o := tryBody3 r ops queue now e
  if o.lockAcquired && strTruthy o.skuVar then
    { o with queue := delLockKey o.queue (o.skuVar.getD "") }
  else o

theorem tryBody3_lockAcquired_sku (r : Remote3) (ops : OpsMap) (queue : LockMap)
    (now : Nat) (e : InvEvent) :
    (tryBody3 r ops queue now e).lockAcquired = true →
    strTruthy (tryBody3 r ops queue now e).skuVar = true := by
  unfold tryBody3
  repeat' split
  all_goals intro h
  all_goals simp_all
  all_goals repeat' split
  all_goals simp_all

/-- Remote answers observed by one run of the SyncTracker-variant handler:
its `getInventoryItem` and `findVariantsBySKU` both swallow errors (null /
empty list), so only the mutation can throw. -/
structure RemoteT where
  inventoryItemSku : Option String
  variants : List Variant
  batchRespond : List SetUpdate → Except Unit (List String)

/-- Result of one SyncTracker-variant handler run. -/
structure OutT where
  ops : OpsMap
  queue : LockMap
  writes : List (List SetUpdate)
  lockAcquired : Bool
  skuVar : Option String

/-- `SyncTracker.acquireLock(sku, maxRetries = 3)`: succeed when no entry
exists, break a lock older than `timeout` ms, otherwise sleep 1 s and retry
(the clock advances between attempts). -/
def acquireLoopT : Nat → LockMap → String → Nat → Bool × LockMap
  | 0, q, _, _ => (false, q)
  | n + 1, q, sku, now =>
    match List.lookup sku q with
    | none => (true, (sku, now) :: q)
    | some lockTime =>
      if timeoutTracker < now - lockTime then (true, (sku, now) :: delLockKey q sku)
      else acquireLoopT n q sku (now + 1000)

/-- The `try`-block of the SyncTracker-variant handler (index.js lines
655-768): `elapsed1`/`elapsed2` are the `Date.now() - startTime` readings of
the two timeout-prevention guards; the mutation's userErrors skip `markSync`
but still answer 200, and a thrown mutation error reaches the `catch`. -/
def tryBodyT (r : RemoteT) (ops : OpsMap) (queue : LockMap) (now : Nat)
    (elapsed1 elapsed2 : Nat) (e : InvEvent) : OutT :=
  if !natTruthy e.inventory_item_id || !natTruthy e.location_id
      || e.available.isNone then
    ⟨ops, queue, [], false, none⟩
  else if 20000 < elapsed1 then ⟨ops, queue, [], false, none⟩
  else
    let itemSku := r.inventoryItemSku
    if !strTruthy itemSku then ⟨ops, queue, [], false, itemSku⟩
    else
      let sku := itemSku.getD ""
      let location_id := e.location_id.getD 0
      let available := e.available.getD 0
      if isRecentSync timeoutTracker ops sku location_id available now then
        ⟨ops, queue, [], false, itemSku⟩
      else
        let acq := acquireLoopT 3 queue sku now
        if !acq.1 then ⟨ops, acq.2, [], false, itemSku⟩
        else
          let variants := r.variants
          if variants.length ≤ 1 then ⟨ops, acq.2, [], true, itemSku⟩
          else
            let updates := computeSetUpdatesTracker variants
              (e.inventory_item_id.getD 0) location_id available
            if updates.isEmpty then ⟨ops, acq.2, [], true, itemSku⟩
            else if 22000 < elapsed2 then ⟨ops, acq.2, [], true, itemSku⟩
            else
              match r.batchRespond updates with
              | .error _ => ⟨ops, acq.2, [updates], true, itemSku⟩
              | .ok errs =>
                if errs.isEmpty then
                  ⟨markSync ops sku location_id available
                      (updates.map (fun u => u.inventoryItemId)) now,
                    acq.2, [updates], true, itemSku⟩
                else ⟨ops, acq.2, [updates], true, itemSku⟩

/-- The SyncTracker-variant handler with its `finally` block applied:
`if (lockAcquired && sku) syncTracker.releaseLock(sku)`. -/
def processInventoryUpdateT (r : RemoteT) (ops : OpsMap) (queue : LockMap)
    (now : Nat) (elapsed1 elapsed2 : Nat) (e : InvEvent) : OutT :=
  let o := tryBodyT r ops queue now elapsed1 elapsed2 e
  if o.lockAcquired && strTruthy o.skuVar then
    { o with queue := delLockKey o.queue (o.skuVar.getD "") }
  else o

theorem tryBodyT_lockAcquired_sku (r : RemoteT) (ops : OpsMap) (queue : LockMap)
    (now elapsed1 elapsed2 : Nat) (e : InvEvent) :
    (tryBodyT r ops queue now elapsed1 elapsed2 e).lockAcquired = true →
    strTruthy (tryBodyT r ops queue now elapsed1 elapsed2 e).skuVar = true := by
  unfold tryBodyT
  repeat' split
  all_goals intro h
  all_goals simp_all
  all_goals repeat' split
  all_goals simp_all

/-- C7: any invocation of the inventory-level-changed handler (part_002
variant, or the SyncTracker variant) that acquires the per-SKU lock ends
with no lock entry for that SKU, whatever the exit path — normal completion
with a write, early return with nothing to update, or a thrown remote error
caught by the handler. -/
theorem lock_released_on_all_paths :
    (∀ (r : Remote3) (ops : OpsMap) (queue : LockMap) (now : Nat) (e : InvEvent),
      (processInventoryUpdate3 r ops queue now e).lockAcquired = true →
      ∃ k, (processInventoryUpdate3 r ops queue now e).skuVar = some k
        ∧ List.lookup k (processInventoryUpdate3 r ops queue now e).queue = none)
    ∧ (∀ (r : RemoteT) (ops : OpsMap) (queue : LockMap) (now elapsed1 elapsed2 : Nat)
        (e : InvEvent),
      (processInventoryUpdateT r ops queue now elapsed1 elapsed2 e).lockAcquired = true →
      ∃ k, (processInventoryUpdateT r ops queue now elapsed1 elapsed2 e).skuVar = some k
        ∧ List.lookup k
            (processInventoryUpdateT r ops queue now elapsed1 elapsed2 e).queue = none) := by
  constructor
  · intro r ops queue now e hacq
    have hacq0 : (tryBody3 r ops queue now e).lockAcquired = true := by
      by_cases hc : ((tryBody3 r ops queue now e).lockAcquired
          && strTruthy (tryBody3 r ops queue now e).skuVar) = true
      · simpa [processInventoryUpdate3, hc] using hacq
      · simpa [processInventoryUpdate3, hc] using hacq
    have hsku := tryBody3_lockAcquired_sku r ops queue now e hacq0
    match hs : (tryBody3 r ops queue now e).skuVar with
    | none => simp [hs, strTruthy] at hsku
    | some s =>
      rw [hs] at hsku
      refine ⟨s, ?_, ?_⟩
      · simp [processInventoryUpdate3, hacq0, hsku, hs]
      · have hq : (processInventoryUpdate3 r ops queue now e).queue
            = delLockKey (tryBody3 r ops queue now e).queue s := by
          simp [processInventoryUpdate3, hacq0, hsku, hs]
        rw [hq]
        exact lookup_delLockKey_self _ s
  · intro r ops queue now elapsed1 elapsed2 e hacq
    have hacq0 : (tryBodyT r ops queue now elapsed1 elapsed2 e).lockAcquired = true := by
      by_cases hc : ((tryBodyT r ops queue now elapsed1 elapsed2 e).lockAcquired
          && strTruthy (tryBodyT r ops queue now elapsed1 elapsed2 e).skuVar) = true
      · simpa [processInventoryUpdateT, hc] using hacq
      · simpa [processInventoryUpdateT, hc] using hacq
    have hsku := tryBodyT_lockAcquired_sku r ops queue now elapsed1 elapsed2 e hacq0
    match hs : (tryBodyT r ops queue now elapsed1 elapsed2 e).skuVar with
    | none => simp [hs, strTruthy] at hsku
    | some s =>
      rw [hs] at hsku
      refine ⟨s, ?_, ?_⟩
      · simp [processInventoryUpdateT, hacq0, hsku, hs]
      · have hq : (processInventoryUpdateT r ops queue now elapsed1 elapsed2 e).queue
            = delLockKey (tryBodyT r ops queue now elapsed1 elapsed2 e).queue s := by
          simp [processInventoryUpdateT, hacq0, hsku, hs]
        rw [hq]
        exact lookup_delLockKey_self _ s

/-- Remote answers for the witness run: everything succeeds, two variants. -/
def wRemote3 : Remote3 :=
  { inventoryItemSku := .ok (some "A")
    variants := .ok [⟨"v1", "A", "gid://shopify/InventoryItem/1"⟩,
                     ⟨"v2", "A", "gid://shopify/InventoryItem/2"⟩]
    batchRespond := fun _ => .ok [] }

theorem lock_released_on_all_paths_witness :
    ∃ k, (processInventoryUpdate3 wRemote3 [] [] 0 wEvent1).skuVar = some k
      ∧ List.lookup k (processInventoryUpdate3 wRemote3 [] [] 0 wEvent1).queue = none :=
  lock_released_on_all_paths.1 wRemote3 [] [] 0 wEvent1 (by decide)

theorem foldl_batchStep_fst (respond : List SetUpdate → List String) :
    ∀ (bs : List (List SetUpdate)) (acc : Bool × List String),
      (List.foldl (batchStep respond) acc bs).1
        = (acc.1 || bs.any (fun b => !(respond b).isEmpty)) := by
  intro bs
  induction bs with
  | nil => intro acc; simp
  | cons b rest ih =>
    intro acc
    simp only [List.foldl_cons, List.any_cons, ih]
    by_cases hb : (respond b).isEmpty
    · simp [batchStep, hb]
    · have hb' : (respond b).isEmpty = false := by simpa using hb
      simp [batchStep, hb']

theorem processBatches1_no_errors_iff (respond : List SetUpdate → List String)
    (bs : List (List SetUpdate)) :
    (processBatches1 respond bs).1 = false ↔ ∀ b ∈ bs, respond b = [] := by
  simp [processBatches1, foldl_batchStep_fst, List.any_eq_false, List.isEmpty_iff]

theorem runChunks_ok (respond : List SetUpdate → List String) :
    ∀ parts, runChunks (fun b => Except.ok (respond b)) parts = (parts, none) := by
  intro parts
  induction parts with
  | nil => rfl
  | cons p rest ih => simp [runChunks, ih]

/-- part_002 handler: the `finally` block only touches the lock queue. -/
theorem processInventoryUpdate3_ops (r : Remote3) (ops : OpsMap) (queue : LockMap)
    (now : Nat) (e : InvEvent) :
    (processInventoryUpdate3 r ops queue now e).ops = (tryBody3 r ops queue now e).ops
    ∧ (processInventoryUpdate3 r ops queue now e).writes
        = (tryBody3 r ops queue now e).writes := by
  unfold processInventoryUpdate3
  by_cases hc : ((tryBody3 r ops queue now e).lockAcquired
      && strTruthy (tryBody3 r ops queue now e).skuVar) = true
  · simp [hc]
  · simp [hc]

/-- C10: in the first implementation a run that submitted batches records the
suppression entry iff every submitted batch returned an empty userErrors
list, and when some batch reported errors the operations map is left
unchanged; the part_002 implementation instead records the sync
unconditionally (with the run's timestamp) after the batched write, whatever
the per-item errors were. -/
theorem markSync_error_gating :
    (∀ (r : Remote1) (ops : OpsMap) (now : Nat) (e : InvEvent),
      List.lookup (eventSyncKey r e) ops = none →
      (processInventoryUpdate1 r ops now e).writes ≠ [] →
      (((List.lookup (eventSyncKey r e) (processInventoryUpdate1 r ops now e).ops).isSome
          = true)
        ↔ (∀ b ∈ (processInventoryUpdate1 r ops now e).writes, r.batchRespond b = []))
      ∧ ((∃ b ∈ (processInventoryUpdate1 r ops now e).writes, r.batchRespond b ≠ []) →
          (processInventoryUpdate1 r ops now e).ops = ops))
    ∧ (∀ (skuO : Option String) (vs : List Variant)
        (respond : List SetUpdate → List String) (ops : OpsMap) (queue : LockMap)
        (now : Nat) (e : InvEvent),
      (processInventoryUpdate3 ⟨.ok skuO, .ok vs, fun b => .ok (respond b)⟩
          ops queue now e).writes ≠ [] →
      ∃ ids, List.lookup
          (syncKey (skuO.getD "") (e.location_id.getD 0) (e.available.getD 0))
          (processInventoryUpdate3 ⟨.ok skuO, .ok vs, fun b => .ok (respond b)⟩
            ops queue now e).ops = some ⟨now, ids⟩) := by
  constructor
  · intro r ops now e hpre hw
    cases hc1 : (!natTruthy e.inventory_item_id || !natTruthy e.location_id
        || e.available.isNone) with
    | true => simp [processInventoryUpdate1, hc1] at hw
    | false =>
      cases hc2 : (!strTruthy r.inventoryItemSku) with
      | true => simp [processInventoryUpdate1, hc1, hc2] at hw
      | false =>
        by_cases hc3 : isRecentSync timeout1 ops (r.inventoryItemSku.getD "")
            (e.location_id.getD 0) (e.available.getD 0) now = true
        · simp [processInventoryUpdate1, hc1, hc2, hc3] at hw
        · by_cases hc4 : r.variants.length ≤ 1
          · simp [processInventoryUpdate1, hc1, hc2, hc3, hc4] at hw
          · by_cases hc5 : (computeSetUpdates r.variants (e.inventory_item_id.getD 0)
                (e.location_id.getD 0) (e.available.getD 0)).isEmpty = true
            · simp [processInventoryUpdate1, hc1, hc2, hc3, hc4, hc5] at hw
            · have hwrites : (processInventoryUpdate1 r ops now e).writes
                  = chunk (computeSetUpdates r.variants (e.inventory_item_id.getD 0)
                      (e.location_id.getD 0) (e.available.getD 0)) batchSize := by
                simp [processInventoryUpdate1, hc1, hc2, hc3, hc4, hc5]
              have hops : (processInventoryUpdate1 r ops now e).ops
                  = if (processBatches1 r.batchRespond
                        (chunk (computeSetUpdates r.variants (e.inventory_item_id.getD 0)
                          (e.location_id.getD 0) (e.available.getD 0)) batchSize)).1
                        = false
                    then markSync ops (r.inventoryItemSku.getD "") (e.location_id.getD 0)
                      (e.available.getD 0)
                      (processBatches1 r.batchRespond
                        (chunk (computeSetUpdates r.variants (e.inventory_item_id.getD 0)
                          (e.location_id.getD 0) (e.available.getD 0)) batchSize)).2 now
                    else ops := by
                simp [processInventoryUpdate1, hc1, hc2, hc3, hc4, hc5,
                  Bool.not_eq_true']
              rw [hwrites, hops]
              cases he : (processBatches1 r.batchRespond
                  (chunk (computeSetUpdates r.variants (e.inventory_item_id.getD 0)
                    (e.location_id.getD 0) (e.available.getD 0)) batchSize)).1 with
              | false =>
                have hall := (processBatches1_no_errors_iff r.batchRespond _).mp he
                constructor
                · rw [if_pos rfl]
                  rw [show eventSyncKey r e
                      = syncKey (r.inventoryItemSku.getD "") (e.location_id.getD 0)
                        (e.available.getD 0) from rfl]
                  simp only [markSync, lookup_setKey_self, Option.isSome_some]
                  exact iff_of_true trivial hall
                · rintro ⟨b, hb, hbne⟩
                  exact absurd (hall b hb) hbne
              | true =>
                constructor
                · rw [if_neg (by simp), hpre]
                  simp only [Option.isSome_none]
                  constructor
                  · intro hfalse
                    exact absurd hfalse (by simp)
                  · intro hall
                    have h2 := (processBatches1_no_errors_iff r.batchRespond _).mpr hall
                    rw [h2] at he
                    exact absurd he (by simp)
                · intro _
                  rw [if_neg (by simp)]
  · intro skuO vs respond ops queue now e hw
    obtain ⟨hops3, hwrites3⟩ := processInventoryUpdate3_ops
      ⟨.ok skuO, .ok vs, fun b => .ok (respond b)⟩ ops queue now e
    rw [hwrites3] at hw
    rw [hops3]
    cases hc1 : (!natTruthy e.inventory_item_id || !natTruthy e.location_id
        || e.available.isNone) with
    | true => simp [tryBody3, hc1] at hw
    | false =>
      cases hc2 : (!strTruthy skuO) with
      | true => simp [tryBody3, hc1, hc2] at hw
      | false =>
        by_cases hc3 : isRecentSync timeout3 ops (skuO.getD "")
            (e.location_id.getD 0) (e.available.getD 0) now = true
        · simp [tryBody3, hc1, hc2, hc3] at hw
        · cases hc4 : (acquireLoop3 3 queue (skuO.getD "") now).1 with
          | false => simp [tryBody3, hc1, hc2, hc3, hc4] at hw
          | true =>
            by_cases hc5 : vs.length ≤ 1
            · simp [tryBody3, hc1, hc2, hc3, hc4, hc5] at hw
            · by_cases hc6 : (computeSetUpdates vs (e.inventory_item_id.getD 0)
                  (e.location_id.getD 0) (e.available.getD 0)).isEmpty = true
              · simp [tryBody3, hc1, hc2, hc3, hc4, hc5, hc6] at hw
              · refine ⟨(computeSetUpdates vs (e.inventory_item_id.getD 0)
                    (e.location_id.getD 0) (e.available.getD 0)).map
                    (fun u => u.inventoryItemId), ?_⟩
                have hok := runChunks_ok respond
                  (chunk (computeSetUpdates vs (e.inventory_item_id.getD 0)
                    (e.location_id.getD 0) (e.available.getD 0)) batchSize)
                simp [tryBody3, hc1, hc2, hc3, hc4, hc5, hc6, setOnHandBatched, hok,
                  markSync, lookup_setKey_self]

/-- Remote answers where the single batch mutation reports a userError. -/
def wRemoteErr : Remote1 :=
  { inventoryItemSku := some "A"
    variants := [⟨"v1", "A", "gid://shopify/InventoryItem/1"⟩,
                 ⟨"v2", "A", "gid://shopify/InventoryItem/2"⟩]
    batchRespond := fun _ => ["Inventory item not stocked at location"] }

theorem markSync_error_gating_witness :
    (processInventoryUpdate1 wRemoteErr [] 5 wEvent1).ops = []
    ∧ ∃ ids, List.lookup (syncKey "A" 9 5)
        (processInventoryUpdate3
          ⟨.ok (some "A"),
           .ok [⟨"v1", "A", "gid://shopify/InventoryItem/1"⟩,
                ⟨"v2", "A", "gid://shopify/InventoryItem/2"⟩],
           fun b => .ok ((fun _ => []) b)⟩ [] [] 7 wEvent1).ops = some ⟨7, ids⟩ :=
  ⟨(markSync_error_gating.1 wRemoteErr [] 5 wEvent1 (by decide) (by decide)).2
      ⟨[⟨"gid://shopify/InventoryItem/2", "gid://shopify/Location/9", 5⟩],
        by decide, by decide⟩,
   markSync_error_gating.2 (some "A")
      [⟨"v1", "A", "gid://shopify/InventoryItem/1"⟩,
       ⟨"v2", "A", "gid://shopify/InventoryItem/2"⟩]
      (fun _ => []) [] [] 7 wEvent1 (by decide)⟩

/-- C8: the absolute-set operation submits every update exactly once, as the
consecutive in-order chunks of at most `batchSize` produced by `chunk`, and
the submitted batch list is `chunk updates batchSize` whatever per-item
userErrors the responses carry — an errored batch never prevents the
remaining batches (throws are a different failure class, not covered by the
claim). -/
theorem setOnHandBatched_partitions (updates : List SetUpdate)
    (respond : List SetUpdate → List String) :
    (setOnHandBatched updates (fun b => .ok (respond b))).1 = chunk updates batchSize
    ∧ (chunk updates batchSize).flatten = updates
    ∧ ∀ b ∈ chunk updates batchSize, b.length ≤ batchSize := by
  refine ⟨?_, ?_, ?_⟩
  · simp [setOnHandBatched, runChunks_ok]
  · exact chunk_flatten 49 updates
  · intro b hb
    exact chunk_mem_length_le 49 updates b hb

theorem setOnHandBatched_partitions_witness :
    (setOnHandBatched
        [⟨"gid://shopify/InventoryItem/1", "gid://shopify/Location/9", 5⟩,
         ⟨"gid://shopify/InventoryItem/2", "gid://shopify/Location/9", 5⟩]
        (fun b => .ok ((fun _ => ["stocked-error"]) b))).1
      = chunk [⟨"gid://shopify/InventoryItem/1", "gid://shopify/Location/9", 5⟩,
               ⟨"gid://shopify/InventoryItem/2", "gid://shopify/Location/9", 5⟩] batchSize
    ∧ ([⟨"gid://shopify/InventoryItem/1", "gid://shopify/Location/9", 5⟩,
        ⟨"gid://shopify/InventoryItem/2", "gid://shopify/Location/9", 5⟩]
          : List SetUpdate).length ≤ batchSize :=
  ⟨(setOnHandBatched_partitions
      [⟨"gid://shopify/InventoryItem/1", "gid://shopify/Location/9", 5⟩,
       ⟨"gid://shopify/InventoryItem/2", "gid://shopify/Location/9", 5⟩]
      (fun _ => ["stocked-error"])).1,
   (setOnHandBatched_partitions
      [⟨"gid://shopify/InventoryItem/1", "gid://shopify/Location/9", 5⟩,
       ⟨"gid://shopify/InventoryItem/2", "gid://shopify/Location/9", 5⟩]
      (fun _ => ["stocked-error"])).2.2
      [⟨"gid://shopify/InventoryItem/1", "gid://shopify/Location/9", 5⟩,
       ⟨"gid://shopify/InventoryItem/2", "gid://shopify/Location/9", 5⟩]
      (by decide)⟩

/-- One line item of an order payload. -/
structure LineItem where
  sku : Option String
  quantity : Option Int
deriving Repr, DecidableEq

/-- One fulfillment of an order payload (only its location is read). -/
structure Fulfillment where
  location_id : Option Nat
deriving Repr, DecidableEq

/-- An order payload as read by the order webhooks. -/
structure Order where
  id : Nat
  line_items : Option (List LineItem)
  location_id : Option Nat
  fulfillments : Option (List Fulfillment)
deriving Repr, DecidableEq

/-- `(order.fulfillments && order.fulfillments[0]?.location_id)`. -/
def fallbackLocation (o : Order) : Option Nat :=
  match o.fulfillments with
  | some (f :: _) => f.location_id
  | _ => none

/-- `order.location_id || (order.fulfillments && order.fulfillments[0]?.location_id)`. -/
def resolveLocation (o : Order) : Option Nat :=
  match o.location_id with
  | some n => if n != 0 then some n else fallbackLocation o
  | none => fallbackLocation o

/-- One line-item step of the first implementation's orders/create handler
(index.js lines 282-320): skip when SKU or location is falsy (quantity is
not checked in this implementation), skip when at most one variant matches,
otherwise build a `-Math.abs(quantity)` delta for every variant — no
exclusion of any trigger — with reason "sale".  A missing quantity is
modelled as 0 (the JS would build NaN deltas there); the theorems only
instantiate present quantities. -/
def createItemUpdates1 (search : String → List VNode) (order : Order)
    (item : LineItem) : Option (String × List DeltaUpdate) :=
  let location_id := resolveLocation order
  if !strTruthy item.sku || !natTruthy location_id then none
  else
    let variants := findVariantsBySKU search item.sku
    if variants.length ≤ 1 then none
    else
      some ("sale", variants.map (fun v =>
        { inventoryItemId := v.inventory_item_id
          locationId := locationGid (location_id.getD 0)
          availableDelta := -(((item.quantity.getD 0).natAbs : Int)) }))

/-- One line-item step of the first implementation's orders/cancelled
handler (index.js lines 342-374): structurally identical to the create step
but with `+Math.abs(quantity)` and reason "return_or_cancel". -/
def cancelledItemUpdates1 (search : String → List VNode) (order : Order)
    (item : LineItem) : Option (String × List DeltaUpdate) :=
  let location_id := resolveLocation order
  if !strTruthy item.sku || !natTruthy location_id then none
  else
    let variants := findVariantsBySKU search item.sku
    if variants.length ≤ 1 then none
    else
      some ("return_or_cancel", variants.map (fun v =>
        { inventoryItemId := v.inventory_item_id
          locationId := locationGid (location_id.getD 0)
          availableDelta := (((item.quantity.getD 0).natAbs : Int)) }))

/-- The delta update the order flows build for a variant. -/
def mkDeltaUpdate (v : Variant) (location_id : Nat) (delta : Int) : DeltaUpdate :=
  { inventoryItemId := v.inventory_item_id
    locationId := locationGid location_id
    availableDelta := delta }

/-- C6: for a line item with quantity `q`, a resolvable location, and a SKU
matching more than one variant, the order-created handler builds one delta
update per matching variant (no trigger exclusion) with delta `-|q|` and
reason "sale"; the order-cancelled handler builds the same list with delta
`+|q|` and reason "return_or_cancel". -/
theorem order_delta_updates (search : String → List VNode) (order : Order)
    (item : LineItem) (q : Int)
    (hsku : strTruthy item.sku = true)
    (hloc : natTruthy (resolveLocation order) = true)
    (hq : item.quantity = some q)
    (hv : 1 < (findVariantsBySKU search item.sku).length) :
    (createItemUpdates1 search order item
        = some ("sale", (findVariantsBySKU search item.sku).map
            (fun v => mkDeltaUpdate v ((resolveLocation order).getD 0) (-(q.natAbs : Int))))
      ∧ ∀ v ∈ findVariantsBySKU search item.sku,
          mkDeltaUpdate v ((resolveLocation order).getD 0) (-(q.natAbs : Int))
            ∈ ((createItemUpdates1 search order item).map Prod.snd).getD [])
    ∧ (cancelledItemUpdates1 search order item
        = some ("return_or_cancel", (findVariantsBySKU search item.sku).map
            (fun v => mkDeltaUpdate v ((resolveLocation order).getD 0) ((q.natAbs : Int))))
      ∧ ∀ v ∈ findVariantsBySKU search item.sku,
          mkDeltaUpdate v ((resolveLocation order).getD 0) ((q.natAbs : Int))
            ∈ ((cancelledItemUpdates1 search order item).map Prod.snd).getD []) := by
  have hlen : ¬ (findVariantsBySKU search item.sku).length ≤ 1 := by omega
  have hcreate : createItemUpdates1 search order item
      = some ("sale", (findVariantsBySKU search item.sku).map
          (fun v => mkDeltaUpdate v ((resolveLocation order).getD 0)
            (-(q.natAbs : Int)))) := by
    simp [createItemUpdates1, hsku, hloc, hlen, hq, mkDeltaUpdate]
  have hcancel : cancelledItemUpdates1 search order item
      = some ("return_or_cancel", (findVariantsBySKU search item.sku).map
          (fun v => mkDeltaUpdate v ((resolveLocation order).getD 0)
            ((q.natAbs : Int)))) := by
    simp [cancelledItemUpdates1, hsku, hloc, hlen, hq, mkDeltaUpdate]
  refine ⟨⟨hcreate, ?_⟩, hcancel, ?_⟩
  · intro v hvmem
    rw [hcreate]
    simpa using List.mem_map_of_mem _ hvmem
  · intro v hvmem
    rw [hcancel]
    simpa using List.mem_map_of_mem _ hvmem

/-- Remote search answering SKU "S" with two matching variants. -/
def wSearch : String → List VNode := fun q =>
  if q = "sku:S" then
    [ { id := "gid://shopify/ProductVariant/1", sku := "S",
        inventoryItemId := "gid://shopify/InventoryItem/1" },
      { id := "gid://shopify/ProductVariant/2", sku := "S",
        inventoryItemId := "gid://shopify/InventoryItem/2" } ]
  else []

/-- An order with a single line item: SKU "S", quantity 3, location 9. -/
def wOrder : Order :=
  { id := 500, line_items := some [⟨some "S", some 3⟩],
    location_id := some 9, fulfillments := none }

theorem order_delta_updates_witness :
    createItemUpdates1 wSearch wOrder ⟨some "S", some 3⟩
      = some ("sale", (findVariantsBySKU wSearch (some "S")).map
          (fun v => mkDeltaUpdate v 9 (-3)))
    ∧ cancelledItemUpdates1 wSearch wOrder ⟨some "S", some 3⟩
      = some ("return_or_cancel", (findVariantsBySKU wSearch (some "S")).map
          (fun v => mkDeltaUpdate v 9 3)) :=
  ⟨(order_delta_updates wSearch wOrder ⟨some "S", some 3⟩ 3 (by decide) (by decide)
      (by decide) (by decide)).1.1,
   (order_delta_updates wSearch wOrder ⟨some "S", some 3⟩ 3 (by decide) (by decide)
      (by decide) (by decide)).2.1⟩

/-- One line-item step of part_002's orders/cancelled handler (lines
399-420): skip when SKU, location, or quantity is falsy; skip when at most
one variant matches; otherwise a `+Math.abs(quantity)` delta per variant. -/
def cancelledItemUpdates3 (search : String → List VNode) (order : Order)
    (item : LineItem) : Option (List DeltaUpdate) :=
  let location_id := resolveLocation order
  if !strTruthy item.sku || !natTruthy location_id || !intTruthy item.quantity then
    none
  else
    let variants := findVariantsBySKU search item.sku
    if variants.length ≤ 1 then none
    else
      some (variants.map (fun v =>
        mkDeltaUpdate v (location_id.getD 0) ((item.quantity.getD 0).natAbs : Int)))

/-- part_002's orders/cancelled `process.nextTick` body (lines 392-426):
iterate the line items and submit each item's updates through
`adjustQuantitiesBatched` (chunks of `batchSize`).  The run is a pure
function of the payload and the remote answers — no order-id set, or any
other state, is consulted or written. -/
def processOrderCancelled3 (search : String → List VNode) (order : Order) :
    List (List DeltaUpdate) :=
  match order.line_items with
  | none => []
  | some items =>
    items.foldl (fun acc item =>
      match cancelledItemUpdates3 search order item with
      | none => acc
      | some us => acc ++ chunk us batchSize) []

/-- C9 (code bug): the cancelled handler keeps no in-flight order-id set, so
a second delivery of the same order submits the same positive adjustments
again: over two deliveries of order 500, inventory item 1 accumulates +6
where a deduplicating handler would apply +3 once. -/
theorem cancelled_redelivery_double_adjust :
    processOrderCancelled3 wSearch wOrder
      = [[⟨"gid://shopify/InventoryItem/1", "gid://shopify/Location/9", 3⟩,
          ⟨"gid://shopify/InventoryItem/2", "gid://shopify/Location/9", 3⟩]]
    ∧ ((processOrderCancelled3 wSearch wOrder
          ++ processOrderCancelled3 wSearch wOrder).flatten.foldl
        (fun s u => if u.inventoryItemId = "gid://shopify/InventoryItem/1"
          then s + u.availableDelta else s) 0) = 6 := by
  decide

end SkuSync
